import Mathlib

/-!
VAXP-DOCK Linux runner (`linux/runner/my_application.cc`)

A shallow embedding of the GTK runner of the dock: the C++ functions
`first_frame_cb`, `my_application_activate` and
`my_application_local_command_line` become state-passing Lean functions over a
record `Gtk` that holds the toolkit-side state these functions touch (the
top-level window, the embedded Flutter view, the X11 properties of the window)
together with the log of every external call they make, in program order.

Values of the C type `int` are `Option Int`: `some v` with
`INT_MIN ≤ v ≤ INT_MAX`, or `none` when the C++ expression that produces the
value has no defined result (signed overflow, or a floating-point value
converted to `int` that does not fit).  The `double` values of the program are
rationals; every `double` that occurs is `50 * s` for an `int` `s`, which the
IEEE double format represents exactly.
-/

namespace VaxpDock

/-! ## C integers and doubles -/

/-- Smallest value of the C type `int` (32 bits, as on every Linux target of the runner). -/
def INT_MIN : Int := -2147483648

/-- Largest value of the C type `int`. -/
def INT_MAX : Int := 2147483647

/-- The mathematical result `v` of an `int` expression, as a value of type `int`:
defined only when it is representable. -/
def int_result (v : Int) : Option Int :=
  if INT_MIN ≤ v ∧ v ≤ INT_MAX then some v else none

/-- The C expression `a + b` on `int` operands. -/
def int_add (a b : Option Int) : Option Int :=
  a.bind fun x => b.bind fun y => int_result (x + y)

/-- The C expression `a - b` on `int` operands. -/
def int_sub (a b : Option Int) : Option Int :=
  a.bind fun x => b.bind fun y => int_result (x - y)

/-- Conversion `int → double`: exact (a double has 53 bits of mantissa). -/
def int_to_double (i : Int) : ℚ := (i : ℚ)

/-- Conversion `double → int` (as in `int window_height = 50 * scale_factor;`):
the fractional part is discarded (truncation toward zero); the result is
defined only when the truncated value is representable in `int`. -/
def double_to_int (v : ℚ) : Option Int :=
  int_result (Int.tdiv v.num (v.den : Int))

/-- The conversion `static_cast<long>(i)` of an `int`: value preserving. -/
def int_to_long (i : Option Int) : Option Int := i

/-! ## The display environment -/

/-- The struct `GdkRectangle` filled by `gdk_monitor_get_geometry`. -/
structure GdkRectangle where
  x : Int
  y : Int
  width : Int
  height : Int
  deriving DecidableEq

/-- What the ambient display and the application service answer to the queries
of the runner.  A primary monitor exists; the fields of type `Int` stand for C
`int` values. -/
structure Display where
  /-- Result of `gdk_monitor_get_geometry` on the primary monitor. -/
  monitor_geometry : GdkRectangle
  /-- Result of `gdk_monitor_get_scale_factor` on the primary monitor (a C `int`). -/
  scale_factor : Int
  /-- Whether `gdk_screen_get_rgba_visual` returns a visual (not `nullptr`). -/
  rgba_visual : Bool
  /-- Whether the runner was compiled with `GDK_WINDOWING_X11`. -/
  gdk_windowing_x11 : Bool
  /-- Result of `GDK_IS_X11_WINDOW` on the realized window. -/
  is_x11_window : Bool
  /-- Outcome of `g_application_register`: `none` on success, the message of the
  `GError` on failure. -/
  register_error : Option String
  deriving DecidableEq

/-! ## Toolkit state and the log of external calls -/

/-- The two widgets the runner creates. -/
inductive Widget where
  | window
  | view
  deriving DecidableEq

/-- The callbacks the runner connects to signals. -/
inductive Callback where
  | first_frame_cb
  deriving DecidableEq

/-- The property types used with `XChangeProperty`. -/
inductive XType where
  | XA_ATOM
  | XA_CARDINAL
  deriving DecidableEq

/-- The data handed to `XChangeProperty`. -/
inductive XData where
  | atoms (names : List String)
  | longs (values : List (Option Int))
  deriving DecidableEq

/-- The external calls of the runner that act on the toolkit, the X server, the
Flutter embedder or the application service, with their arguments; an `int`
argument is `none` when the expression passed has no defined value. -/
inductive Call where
  | gtk_application_window_new
  | gtk_widget_set_app_paintable (w : Widget) (flag : Bool)
  | gtk_widget_set_visual (w : Widget)
  | gtk_window_set_default_size (width height : Option Int)
  | gtk_widget_set_size_request (w : Widget) (width height : Option Int)
  | gtk_window_set_keep_above (flag : Bool)
  | gtk_window_set_decorated (flag : Bool)
  | gtk_window_stick
  | gtk_widget_realize (w : Widget)
  | gtk_window_move (x y : Option Int)
  | XInternAtom (name : String) (only_if_exists : Bool)
  | XChangeProperty (property : String) (type : XType) (format : Nat) (data : XData)
      (nelements : Nat)
  | XFlush
  | fl_dart_project_new
  | fl_dart_project_set_dart_entrypoint_arguments (argv : Option (List String))
  | fl_view_new
  | fl_view_set_background_color (color : String)
  | gtk_widget_show (w : Widget)
  | gtk_container_add (container child : Widget)
  | g_signal_connect_swapped (signal : String) (cb : Callback)
  | fl_register_plugins
  | gtk_widget_grab_focus (w : Widget)
  | g_application_register
  | g_warning (message : String)
  | g_application_activate
  deriving DecidableEq

/-- Whether a call goes to the X server (Xlib). -/
def Call.is_xlib : Call → Bool
  | .XInternAtom _ _ => true
  | .XChangeProperty _ _ _ _ _ => true
  | .XFlush => true
  | _ => false

/-- State of the top-level window. -/
structure Window where
  app_paintable : Bool
  has_rgba_visual : Bool
  default_size : Option (Option Int × Option Int)
  size_request : Option (Option Int × Option Int)
  keep_above : Bool
  decorated : Bool
  stuck : Bool
  realized : Bool
  visible : Bool
  position : Option (Option Int × Option Int)
  child : Option Widget
  deriving DecidableEq

/-- A window as `gtk_application_window_new` returns it: decorated, not
realized, not shown, empty. -/
def Window.fresh : Window :=
  { app_paintable := false, has_rgba_visual := false, default_size := none,
    size_request := none, keep_above := false, decorated := true, stuck := false,
    realized := false, visible := false, position := none, child := none }

/-- The `FlDartProject` object. -/
structure FlDartProject where
  dart_entrypoint_arguments : Option (List String)
  deriving DecidableEq

/-- State of the embedded `FlView`. -/
structure View where
  project : FlDartProject
  background_color : Option String
  visible : Bool
  parent : Option Widget
  first_frame_handlers : List Callback
  plugins_registered : Bool
  has_focus : Bool
  deriving DecidableEq

/-- A view as `fl_view_new project` returns it. -/
def View.fresh (project : FlDartProject) : View :=
  { project := project, background_color := none, visible := false, parent := none,
    first_frame_handlers := [], plugins_registered := false, has_focus := false }

/-- Everything outside the runner that its calls change. -/
structure Gtk where
  window : Window
  view : View
  /-- Properties set on the X window, most recent first. -/
  x_properties : List (String × XData)
  /-- Number of `XFlush` calls made. -/
  x_flushes : Nat
  /-- Every external call made so far, in program order. -/
  calls : List Call
  deriving DecidableEq

/-- The state before the runner has done anything: nothing is shown, no property
is set, no call has been made. -/
def Gtk.start : Gtk :=
  { window := Window.fresh, view := View.fresh ⟨none⟩, x_properties := [], x_flushes := 0,
    calls := [] }

/-- The struct `_MyApplication`. -/
structure MyApplication where
  /-- The field `char** dart_entrypoint_arguments` (`none` is the null pointer). -/
  dart_entrypoint_arguments : Option (List String)
  deriving DecidableEq

/-- Append a call to the log. -/
def record (c : Call) : StateM Gtk Unit :=
  modify fun g => { g with calls := g.calls ++ [c] }

/-! ## The external functions the runner calls

Each one logs the call; those whose effect the properties below depend on also
update the state as GTK, Xlib and the Flutter embedder document it. -/

/-- `gtk_application_window_new`: a new top-level window, not yet shown. -/
def gtk_application_window_new : StateM Gtk Unit := do
  record .gtk_application_window_new
  modify fun g => { g with window := Window.fresh }

/-- `gtk_widget_set_app_paintable`. -/
def gtk_widget_set_app_paintable (w : Widget) (flag : Bool) : StateM Gtk Unit := do
  record (.gtk_widget_set_app_paintable w flag)
  match w with
  | .window => modify fun g => { g with window := { g.window with app_paintable := flag } }
  | .view => pure ()

/-- `gtk_widget_set_visual` with the RGBA visual of the screen. -/
def gtk_widget_set_visual (w : Widget) : StateM Gtk Unit := do
  record (.gtk_widget_set_visual w)
  match w with
  | .window => modify fun g => { g with window := { g.window with has_rgba_visual := true } }
  | .view => pure ()

/-- `gtk_window_set_default_size` on the window. -/
def gtk_window_set_default_size (width height : Option Int) : StateM Gtk Unit := do
  record (.gtk_window_set_default_size width height)
  modify fun g => { g with window := { g.window with default_size := some (width, height) } }

/-- `gtk_widget_set_size_request`. -/
def gtk_widget_set_size_request (w : Widget) (width height : Option Int) : StateM Gtk Unit := do
  record (.gtk_widget_set_size_request w width height)
  match w with
  | .window =>
    modify fun g => { g with window := { g.window with size_request := some (width, height) } }
  | .view => pure ()

/-- `gtk_window_set_keep_above` on the window. -/
def gtk_window_set_keep_above (flag : Bool) : StateM Gtk Unit := do
  record (.gtk_window_set_keep_above flag)
  modify fun g => { g with window := { g.window with keep_above := flag } }

/-- `gtk_window_set_decorated` on the window. -/
def gtk_window_set_decorated (flag : Bool) : StateM Gtk Unit := do
  record (.gtk_window_set_decorated flag)
  modify fun g => { g with window := { g.window with decorated := flag } }

/-- `gtk_window_stick` on the window. -/
def gtk_window_stick : StateM Gtk Unit := do
  record .gtk_window_stick
  modify fun g => { g with window := { g.window with stuck := true } }

/-- `gtk_widget_realize`: creates the native window; it does not show the widget. -/
def gtk_widget_realize (w : Widget) : StateM Gtk Unit := do
  record (.gtk_widget_realize w)
  match w with
  | .window => modify fun g => { g with window := { g.window with realized := true } }
  | .view => pure ()

/-- `gtk_window_move` on the window. -/
def gtk_window_move (x y : Option Int) : StateM Gtk Unit := do
  record (.gtk_window_move x y)
  modify fun g => { g with window := { g.window with position := some (x, y) } }

/-- `XInternAtom`: atoms are identified with their names. -/
def XInternAtom (name : String) (only_if_exists : Bool) : StateM Gtk String := do
  record (.XInternAtom name only_if_exists)
  pure name

/-- `XChangeProperty` on the window of the dock with mode `PropModeReplace`. -/
def XChangeProperty (property : String) (type : XType) (format : Nat) (data : XData)
    (nelements : Nat) : StateM Gtk Unit := do
  record (.XChangeProperty property type format data nelements)
  modify fun g =>
    { g with x_properties := (property, data) :: g.x_properties.filter fun p => p.1 != property }

/-- `XFlush`. -/
def XFlush : StateM Gtk Unit := do
  record .XFlush
  modify fun g => { g with x_flushes := g.x_flushes + 1 }

/-- `fl_dart_project_new`. -/
def fl_dart_project_new : StateM Gtk FlDartProject := do
  record .fl_dart_project_new
  pure { dart_entrypoint_arguments := none }

/-- `fl_dart_project_set_dart_entrypoint_arguments`: the project keeps a copy of `argv`. -/
def fl_dart_project_set_dart_entrypoint_arguments (project : FlDartProject)
    (argv : Option (List String)) : StateM Gtk FlDartProject := do
  record (.fl_dart_project_set_dart_entrypoint_arguments argv)
  pure { project with dart_entrypoint_arguments := argv }

/-- `fl_view_new`. -/
def fl_view_new (project : FlDartProject) : StateM Gtk Unit := do
  record .fl_view_new
  modify fun g => { g with view := View.fresh project }

/-- `fl_view_set_background_color` with the colour parsed by `gdk_rgba_parse`. -/
def fl_view_set_background_color (color : String) : StateM Gtk Unit := do
  record (.fl_view_set_background_color color)
  modify fun g => { g with view := { g.view with background_color := some color } }

/-- `gtk_widget_show`: flags the widget as visible. -/
def gtk_widget_show (w : Widget) : StateM Gtk Unit := do
  record (.gtk_widget_show w)
  match w with
  | .window => modify fun g => { g with window := { g.window with visible := true } }
  | .view => modify fun g => { g with view := { g.view with visible := true } }

/-- `gtk_widget_get_toplevel`: the topmost ancestor of the widget, the widget
itself when it has no parent. -/
def gtk_widget_get_toplevel (w : Widget) : StateM Gtk Widget := do
  let g ← get
  match w with
  | .window => pure .window
  | .view =>
    match g.view.parent with
    | some p => pure p
    | none => pure .view

/-- `gtk_container_add`. -/
def gtk_container_add (container child : Widget) : StateM Gtk Unit := do
  record (.gtk_container_add container child)
  match container, child with
  | .window, .view =>
    modify fun g =>
      { g with window := { g.window with child := some .view },
               view := { g.view with parent := some .window } }
  | _, _ => pure ()

/-- `g_signal_connect_swapped` on the view. -/
def g_signal_connect_swapped (signal : String) (cb : Callback) : StateM Gtk Unit := do
  record (.g_signal_connect_swapped signal cb)
  if signal = "first-frame" then
    modify fun g =>
      { g with view := { g.view with first_frame_handlers := g.view.first_frame_handlers ++ [cb] } }

/-- `fl_register_plugins` on the view. -/
def fl_register_plugins : StateM Gtk Unit := do
  record .fl_register_plugins
  modify fun g => { g with view := { g.view with plugins_registered := true } }

/-- `gtk_widget_grab_focus`. -/
def gtk_widget_grab_focus (w : Widget) : StateM Gtk Unit := do
  record (.gtk_widget_grab_focus w)
  match w with
  | .view => modify fun g => { g with view := { g.view with has_focus := true } }
  | .window => pure ()

/-- `g_application_register`: returns the error, `none` when registration succeeded. -/
def g_application_register (d : Display) : StateM Gtk (Option String) := do
  record .g_application_register
  pure d.register_error

/-- `g_warning`. -/
def g_warning (message : String) : StateM Gtk Unit :=
  record (.g_warning message)

/-- `g_strdupv`: a copy of the string vector. -/
def g_strdupv (v : List String) : List String := v

/-! ## The runner -/

/-- The array `long strut[12]` that `my_application_activate` builds. -/
def strut (window_width window_height : Option Int) : List (Option Int) :=
  [some 0, some 0, some 0, int_to_long (int_add window_height (some 20)),
   some 0, some 0, some 0, some 0,
   some 0, int_to_long window_width, some 0, some 0]

/-- The callback `first_frame_cb`, called when the first Flutter frame is received. -/
def first_frame_cb (_self : MyApplication) (fl_view : Widget) : StateM Gtk Unit := do
  let toplevel ← gtk_widget_get_toplevel fl_view
  gtk_widget_show toplevel

/-- The function `my_application_activate` (`GApplication::activate`). -/
def my_application_activate (d : Display) (self : MyApplication) : StateM Gtk Unit := do
  gtk_application_window_new
  gtk_widget_set_app_paintable .window true
  -- GTK_CHECK_VERSION(3, 0, 0) holds: the Flutter embedder is built on GTK 3
  if d.rgba_visual then
    gtk_widget_set_visual .window
  let monitor_geometry := d.monitor_geometry
  -- `double scale_factor = gdk_monitor_get_scale_factor(monitor);`
  let scale_factor : ℚ := int_to_double d.scale_factor
  let window_height : Option Int := double_to_int (50 * scale_factor)
  let window_width : Option Int := some monitor_geometry.width
  gtk_window_set_default_size window_width window_height
  gtk_widget_set_size_request .window window_width window_height
  gtk_window_set_keep_above true
  gtk_window_set_decorated false
  gtk_window_stick
  gtk_widget_realize .window
  gtk_window_move (some 0)
    (int_sub (int_sub (some monitor_geometry.height) window_height) (some 20))
  -- `#ifdef GDK_WINDOWING_X11` and `if (GDK_IS_X11_WINDOW(gdk_window))`
  if d.gdk_windowing_x11 && d.is_x11_window then
    let type_atom ← XInternAtom "_NET_WM_WINDOW_TYPE" false
    let dock_atom ← XInternAtom "_NET_WM_WINDOW_TYPE_DOCK" false
    XChangeProperty type_atom .XA_ATOM 32 (.atoms [dock_atom]) 1
    let strut_atom ← XInternAtom "_NET_WM_STRUT_PARTIAL" false
    XChangeProperty strut_atom .XA_CARDINAL 32 (.longs (strut window_width window_height)) 12
    XFlush
  let project ← fl_dart_project_new
  let project ← fl_dart_project_set_dart_entrypoint_arguments project
    self.dart_entrypoint_arguments
  fl_view_new project
  fl_view_set_background_color "#00000000"
  gtk_widget_show .view
  gtk_container_add .window .view
  g_signal_connect_swapped "first-frame" .first_frame_cb
  fl_register_plugins
  gtk_widget_grab_focus .view

/-- `g_application_activate`: the application is never remote (it is created with
`G_APPLICATION_NON_UNIQUE`), so the `activate` handler installed by
`my_application_class_init` runs in this process. -/
def g_application_activate (d : Display) (self : MyApplication) : StateM Gtk Unit := do
  record .g_application_activate
  my_application_activate d self

/-- What `my_application_local_command_line` leaves behind: the application
object, the value stored through `exit_status`, and the value returned. -/
structure CommandLineResult where
  self : MyApplication
  exit_status : Int
  handled : Bool
  deriving DecidableEq

/-- The function `my_application_local_command_line`
(`GApplication::local_command_line`); `arguments` is the vector `*arguments`
without its terminating null pointer, and `*arguments + 1` is that vector from
its second element on. -/
def my_application_local_command_line (d : Display) (self : MyApplication)
    (arguments : List String) : StateM Gtk CommandLineResult := do
  let self : MyApplication :=
    { self with dart_entrypoint_arguments := some (g_strdupv (arguments.drop 1)) }
  let error ← g_application_register d
  match error with
  | some message =>
    g_warning ("Failed to register: " ++ message)
    pure { self := self, exit_status := 1, handled := true }
  | none =>
    g_application_activate d self
    pure { self := self, exit_status := 0, handled := true }

/-- The view emits `first-frame`: every handler connected to the signal runs. -/
def emit_first_frame (self : MyApplication) : StateM Gtk Unit := do
  let g ← get
  g.view.first_frame_handlers.forM fun cb =>
    match cb with
    | .first_frame_cb => first_frame_cb self .view

/-- The state after the view has emitted `first-frame` `n` times. -/
def fire_first_frame (self : MyApplication) : Nat → Gtk → Gtk
  | 0, g => g
  | n + 1, g => fire_first_frame self n (emit_first_frame self g).2

/-! ## Observations on the final state -/

/-- The state in which `my_application_activate` leaves the toolkit. -/
def activated (d : Display) (self : MyApplication) (g : Gtk) : Gtk :=
  (my_application_activate d self g).2

/-- The value of `_NET_WM_STRUT_PARTIAL` on the X window, when it is set. -/
def strut_property (g : Gtk) : Option XData :=
  (g.x_properties.find? fun p => p.1 == "_NET_WM_STRUT_PARTIAL").map fun p => p.2

/-- The calls made after `g0` and up to `g1`. -/
def new_calls (g0 g1 : Gtk) : List Call :=
  g1.calls.drop g0.calls.length

/-- The height `my_application_activate` computes for the window. -/
def window_height (d : Display) : Option Int :=
  double_to_int (50 * int_to_double d.scale_factor)

/-- Specification side of the backend comparison: the toolkit operations that
size the window, set its flags, realize it and move it. -/
def window_setup_calls (d : Display) : List Call :=
  [.gtk_application_window_new, .gtk_widget_set_app_paintable .window true] ++
  (if d.rgba_visual then [.gtk_widget_set_visual .window] else []) ++
  [.gtk_window_set_default_size (some d.monitor_geometry.width) (window_height d),
   .gtk_widget_set_size_request .window (some d.monitor_geometry.width) (window_height d),
   .gtk_window_set_keep_above true, .gtk_window_set_decorated false, .gtk_window_stick,
   .gtk_widget_realize .window,
   .gtk_window_move (some 0)
     (int_sub (int_sub (some d.monitor_geometry.height) (window_height d)) (some 20))]

/-- Specification side of the backend comparison: the property exchange with the
window manager, made on X11 only (dock type, strut, one flush). -/
def x11_calls (d : Display) : List Call :=
  [.XInternAtom "_NET_WM_WINDOW_TYPE" false, .XInternAtom "_NET_WM_WINDOW_TYPE_DOCK" false,
   .XChangeProperty "_NET_WM_WINDOW_TYPE" .XA_ATOM 32 (.atoms ["_NET_WM_WINDOW_TYPE_DOCK"]) 1,
   .XInternAtom "_NET_WM_STRUT_PARTIAL" false,
   .XChangeProperty "_NET_WM_STRUT_PARTIAL" .XA_CARDINAL 32
     (.longs (strut (some d.monitor_geometry.width) (window_height d))) 12,
   .XFlush]

/-- Specification side of the backend comparison: view attachment, first-frame
subscription, plugin registration and focus. -/
def view_setup_calls (self : MyApplication) : List Call :=
  [.fl_dart_project_new,
   .fl_dart_project_set_dart_entrypoint_arguments self.dart_entrypoint_arguments,
   .fl_view_new, .fl_view_set_background_color "#00000000", .gtk_widget_show .view,
   .gtk_container_add .window .view, .g_signal_connect_swapped "first-frame" .first_frame_cb,
   .fl_register_plugins, .gtk_widget_grab_focus .view]

/-- The same display environment on an X11 backend. -/
def on_x11 (d : Display) : Display :=
  { d with gdk_windowing_x11 := true, is_x11_window := true }

/-- A display with the given monitor size and scale factor. -/
def display_of (width height scale : Int) (x11 : Bool) : Display :=
  { monitor_geometry := { x := 0, y := 0, width := width, height := height },
    scale_factor := scale, rgba_visual := true, gdk_windowing_x11 := x11,
    is_x11_window := x11, register_error := none }


/-! ## Auxiliary facts -/

theorem double_to_int_fifty (s : Int) :
    double_to_int (50 * int_to_double s) = int_result (50 * s) := by
  have h : (50 : ℚ) * int_to_double s = ((50 * s : Int) : ℚ) := by
    unfold int_to_double; push_cast; ring
  rw [h]
  unfold double_to_int
  rw [Rat.num_intCast, Rat.den_intCast]
  simp

theorem window_height_eq (d : Display) : window_height d = int_result (50 * d.scale_factor) :=
  double_to_int_fifty d.scale_factor

theorem int_result_of_range {v : Int} (h1 : INT_MIN ≤ v) (h2 : v ≤ INT_MAX) :
    int_result v = some v := by
  simp [int_result, h1, h2]

theorem activated_window (d : Display) (self : MyApplication) (g : Gtk) :
    (activated d self g).window =
      { app_paintable := true, has_rgba_visual := d.rgba_visual,
        default_size := some (some d.monitor_geometry.width, window_height d),
        size_request := some (some d.monitor_geometry.width, window_height d),
        keep_above := true, decorated := false, stuck := true, realized := true,
        visible := false,
        position := some (some 0,
          int_sub (int_sub (some d.monitor_geometry.height) (window_height d)) (some 20)),
        child := some .view } := by
  obtain ⟨geo, s, v, x, w, e⟩ := d
  cases v <;> cases x <;> cases w <;> rfl

theorem activated_view (d : Display) (self : MyApplication) (g : Gtk) :
    (activated d self g).view =
      { project := { dart_entrypoint_arguments := self.dart_entrypoint_arguments },
        background_color := some "#00000000", visible := true, parent := some .window,
        first_frame_handlers := [.first_frame_cb], plugins_registered := true,
        has_focus := true } := by
  obtain ⟨geo, s, v, x, w, e⟩ := d
  cases v <;> cases x <;> cases w <;> rfl

theorem foldl_record (l cs : List Call) :
    List.foldl (fun acc c => acc ++ [c]) l cs = l ++ cs := by
  induction cs generalizing l with
  | nil => simp
  | cons c cs ih => simp [ih]

theorem activated_calls (d : Display) (self : MyApplication) (g : Gtk) :
    (activated d self g).calls =
      g.calls ++ (window_setup_calls d ++
        ((if d.gdk_windowing_x11 && d.is_x11_window then x11_calls d else []) ++
          view_setup_calls self)) := by
  have h : (activated d self g).calls =
      List.foldl (fun acc c => acc ++ [c]) g.calls (window_setup_calls d ++
        ((if d.gdk_windowing_x11 && d.is_x11_window then x11_calls d else []) ++
          view_setup_calls self)) := by
    obtain ⟨geo, s, v, x, w, e⟩ := d
    cases v <;> cases x <;> cases w <;> rfl
  rw [h, foldl_record]

theorem activated_x_properties (d : Display) (self : MyApplication) (g : Gtk) :
    (activated d self g).x_properties =
      if d.gdk_windowing_x11 && d.is_x11_window then
        ("_NET_WM_STRUT_PARTIAL",
            XData.longs (strut (some d.monitor_geometry.width) (window_height d))) ::
          (("_NET_WM_WINDOW_TYPE", XData.atoms ["_NET_WM_WINDOW_TYPE_DOCK"]) ::
            g.x_properties.filter fun p => p.1 != "_NET_WM_WINDOW_TYPE").filter
              fun p => p.1 != "_NET_WM_STRUT_PARTIAL"
      else g.x_properties := by
  obtain ⟨geo, s, v, x, w, e⟩ := d
  cases v <;> cases x <;> cases w <;> rfl

theorem activated_x_flushes (d : Display) (self : MyApplication) (g : Gtk) :
    (activated d self g).x_flushes =
      if d.gdk_windowing_x11 && d.is_x11_window then g.x_flushes + 1 else g.x_flushes := by
  obtain ⟨geo, s, v, x, w, e⟩ := d
  cases v <;> cases x <;> cases w <;> rfl

theorem strut_property_activated (d : Display) (self : MyApplication) (g : Gtk)
    (hx : (d.gdk_windowing_x11 && d.is_x11_window) = true) :
    strut_property (activated d self g) =
      some (XData.longs (strut (some d.monitor_geometry.width) (window_height d))) := by
  simp [strut_property, activated_x_properties, hx]

theorem new_calls_activated (d : Display) (self : MyApplication) (g : Gtk) :
    new_calls g (activated d self g) =
      window_setup_calls d ++
        ((if d.gdk_windowing_x11 && d.is_x11_window then x11_calls d else []) ++
          view_setup_calls self) := by
  simp [new_calls, activated_calls]

theorem window_height_of_range (d : Display) (h1 : INT_MIN ≤ 50 * d.scale_factor)
    (h2 : 50 * d.scale_factor ≤ INT_MAX) : window_height d = some (50 * d.scale_factor) := by
  rw [window_height_eq, int_result_of_range h1 h2]

theorem window_y_of_range (d : Display) (h1 : INT_MIN ≤ 50 * d.scale_factor)
    (h2 : 50 * d.scale_factor ≤ INT_MAX)
    (h3 : d.monitor_geometry.height - 50 * d.scale_factor ≤ INT_MAX)
    (h4 : INT_MIN ≤ d.monitor_geometry.height - 50 * d.scale_factor - 20) :
    int_sub (int_sub (some d.monitor_geometry.height) (window_height d)) (some 20) =
      some (d.monitor_geometry.height - 50 * d.scale_factor - 20) := by
  have h5 : INT_MIN ≤ d.monitor_geometry.height - 50 * d.scale_factor := by
    unfold INT_MIN at *; omega
  have h6 : d.monitor_geometry.height - 50 * d.scale_factor - 20 ≤ INT_MAX := by
    unfold INT_MAX at *; omega
  rw [window_height_of_range d h1 h2]
  simp [int_sub, int_result_of_range h5 h3, int_result_of_range h4 h6]

/-! ## The window rectangle -/

/-- C1, as stated, fails where `50 * s` does not fit the C type `int`: with
scale factor 42949673 on a 1920x1080 monitor the product is 2147483650, no
height is defined, and so the window is not given the height `50 * s`. -/
theorem window_rectangle_overflow :
    ¬ ((activated (display_of 1920 1080 42949673 true) ⟨none⟩ Gtk.start).window.default_size
          = some (some 1920, some (50 * 42949673)) ∧
       (activated (display_of 1920 1080 42949673 true) ⟨none⟩ Gtk.start).window.size_request
          = some (some 1920, some (50 * 42949673)) ∧
       (activated (display_of 1920 1080 42949673 true) ⟨none⟩ Gtk.start).window.position
          = some (some 0, some (1080 - 50 * 42949673 - 20))) := by
  simp [activated_window, window_height_eq, display_of, int_result, INT_MIN, INT_MAX]

/-- C1 (amended): for every primary-monitor geometry `(x0, y0, w, h)` and every
scale factor `s ≥ 1` for which `50 * s` and `h - 50 * s - 20` are representable
in the C type `int`, the window gets height `50 * s = round (50 * s)`, width
`w`, x `0` and y `h - 50 * s - 20`, and the same `(width, height)` pair goes to
the default-size call and to the size-request call. -/
theorem window_rectangle (d : Display) (self : MyApplication) (g : Gtk)
    (hs : 1 ≤ d.scale_factor) (hfit : 50 * d.scale_factor ≤ INT_MAX)
    (hh : d.monitor_geometry.height ≤ INT_MAX)
    (hy : INT_MIN ≤ d.monitor_geometry.height - 50 * d.scale_factor - 20) :
    (activated d self g).window.default_size
        = some (some d.monitor_geometry.width, some (50 * d.scale_factor)) ∧
    (activated d self g).window.size_request
        = some (some d.monitor_geometry.width, some (50 * d.scale_factor)) ∧
    (activated d self g).window.position
        = some (some 0, some (d.monitor_geometry.height - 50 * d.scale_factor - 20)) ∧
    Call.gtk_window_set_default_size (some d.monitor_geometry.width)
        (some (50 * d.scale_factor)) ∈ new_calls g (activated d self g) ∧
    Call.gtk_widget_set_size_request .window (some d.monitor_geometry.width)
        (some (50 * d.scale_factor)) ∈ new_calls g (activated d self g) ∧
    Call.gtk_window_move (some 0)
        (some (d.monitor_geometry.height - 50 * d.scale_factor - 20))
          ∈ new_calls g (activated d self g) ∧
    50 * d.scale_factor = round ((50 : ℚ) * (d.scale_factor : ℚ)) := by
  have h1 : INT_MIN ≤ 50 * d.scale_factor := by unfold INT_MIN; omega
  have h3 : d.monitor_geometry.height - 50 * d.scale_factor ≤ INT_MAX := by omega
  have hw := window_height_of_range d h1 hfit
  have hpos := window_y_of_range d h1 hfit h3 hy
  have hr : round ((50 : ℚ) * (d.scale_factor : ℚ)) = 50 * d.scale_factor := by
    have : (50 : ℚ) * (d.scale_factor : ℚ) = ((50 * d.scale_factor : Int) : ℚ) := by
      push_cast; ring
    rw [this, round_intCast]
  refine ⟨?_, ?_, ?_, ?_, ?_, ?_, hr.symm⟩
  · rw [activated_window, hw]
  · rw [activated_window, hw]
  · rw [activated_window, hpos]
  · rw [new_calls_activated]; simp [window_setup_calls, hw]
  · rw [new_calls_activated]; simp [window_setup_calls, hw]
  · rw [new_calls_activated]; simp [window_setup_calls, hpos]

/-- Witness of C1 (amended): a 1920x1080 monitor at scale factor 1, where the
window is created at `(0, 1010)` with size `1920 x 50`. -/
theorem window_rectangle_witness :
    (1 : Int) ≤ (display_of 1920 1080 1 true).scale_factor ∧
    (activated (display_of 1920 1080 1 true) ⟨none⟩ Gtk.start).window.default_size
        = some (some 1920, some 50) ∧
    (activated (display_of 1920 1080 1 true) ⟨none⟩ Gtk.start).window.position
        = some (some 0, some 1010) :=
  have h := window_rectangle (display_of 1920 1080 1 true) ⟨none⟩ Gtk.start
    (by decide) (by decide) (by decide) (by decide)
  ⟨by decide, h.1, h.2.2.1⟩

/-- C2, as stated, fails: at scale factor 2 on a 3840x2160 monitor the window is
not moved to y = 2000. -/
theorem window_at_scale_two_not_2000 :
    (activated (display_of 3840 2160 2 true) ⟨none⟩ Gtk.start).window.position
      ≠ some (some 0, some 2000) := by
  simp [activated_window, window_height_eq, display_of, int_sub, int_result, INT_MIN, INT_MAX]

/-- C2 (amended): given scale factor 2 and a primary monitor of geometry
3840x2160 (at any origin), `my_application_activate` creates the dock window at
`(x, y, width, height) = (0, 2040, 3840, 100)`. -/
theorem window_at_scale_two (x0 y0 : Int) (rgba x11 xwin : Bool) (err : Option String)
    (self : MyApplication) (g : Gtk) :
    (activated { monitor_geometry := { x := x0, y := y0, width := 3840, height := 2160 },
                 scale_factor := 2, rgba_visual := rgba, gdk_windowing_x11 := x11,
                 is_x11_window := xwin, register_error := err } self g).window.position
      = some (some 0, some 2040) ∧
    (activated { monitor_geometry := { x := x0, y := y0, width := 3840, height := 2160 },
                 scale_factor := 2, rgba_visual := rgba, gdk_windowing_x11 := x11,
                 is_x11_window := xwin, register_error := err } self g).window.default_size
      = some (some 3840, some 100) ∧
    (activated { monitor_geometry := { x := x0, y := y0, width := 3840, height := 2160 },
                 scale_factor := 2, rgba_visual := rgba, gdk_windowing_x11 := x11,
                 is_x11_window := xwin, register_error := err } self g).window.size_request
      = some (some 3840, some 100) := by
  simp [activated_window, window_height_eq, int_sub, int_result, INT_MIN, INT_MAX]

/-! ## The strut -/

theorem strut_bottom_of_height (d : Display) (wh : Int) (h : window_height d = some wh) :
    int_add (window_height d) (some 20) = some (wh + 20) := by
  rw [window_height_eq] at h
  have hr : INT_MIN ≤ 50 * d.scale_factor ∧ 50 * d.scale_factor ≤ INT_MAX := by
    by_contra hc
    simp [int_result, hc] at h
  have hv : 50 * d.scale_factor = wh := by
    simpa [int_result, hr] using h
  rw [window_height_eq, int_result_of_range hr.1 hr.2, hv]
  have h1 : INT_MIN ≤ wh + 20 := by
    have := hr.1; unfold INT_MIN at *; omega
  have h2 : wh + 20 ≤ INT_MAX := by
    have := hr.2; unfold INT_MAX at *; omega
  simp [int_add, int_result_of_range h1 h2]

/-- C3: on an X11 backend, for every `window_width` and `window_height` that
`my_application_activate` computes (the pair it gives the window as its size),
the value written to `_NET_WM_STRUT_PARTIAL` is an array of exactly 12
elements whose slot 3 (the bottom margin) is `window_height + 20`, whose slot 9
is `window_width`, and whose 10 other slots are 0. -/
theorem strut_array (d : Display) (self : MyApplication) (g : Gtk) (ww wh : Int)
    (hx : (d.gdk_windowing_x11 && d.is_x11_window) = true)
    (hsize : (activated d self g).window.default_size = some (some ww, some wh)) :
    ∃ l : List (Option Int),
      strut_property (activated d self g) = some (XData.longs l) ∧
      Call.XChangeProperty "_NET_WM_STRUT_PARTIAL" .XA_CARDINAL 32 (XData.longs l) 12
        ∈ new_calls g (activated d self g) ∧
      l.length = 12 ∧ l[3]? = some (some (wh + 20)) ∧ l[9]? = some (some ww) ∧
      ∀ i, i < 12 → i ≠ 3 → i ≠ 9 → l[i]? = some (some 0) := by
  rw [activated_window] at hsize
  simp only [Option.some.injEq, Prod.mk.injEq] at hsize
  obtain ⟨hw, hh⟩ := hsize
  refine ⟨strut (some d.monitor_geometry.width) (window_height d),
    strut_property_activated d self g hx, ?_, ?_, ?_, ?_, ?_⟩
  · rw [new_calls_activated]; simp [hx, x11_calls]
  · simp [strut]
  · simp [strut, int_to_long, strut_bottom_of_height d wh hh]
  · simp [strut, int_to_long, hw]
  · intro i hi h3 h9
    interval_cases i <;> simp_all [strut]

/-- Witness of C3: a 1920x1080 monitor at scale factor 1 on X11, where the
window is 1920 wide and 50 high. -/
theorem strut_array_witness :
    ∃ l : List (Option Int),
      strut_property (activated (display_of 1920 1080 1 true) ⟨none⟩ Gtk.start)
        = some (XData.longs l) ∧
      l.length = 12 ∧ l[3]? = some (some 70) ∧ l[9]? = some (some 1920) :=
  have hsize : (activated (display_of 1920 1080 1 true) ⟨none⟩ Gtk.start).window.default_size
      = some (some 1920, some 50) := by
    simp [activated_window, window_height_eq, display_of, int_result, INT_MIN, INT_MAX]
  have ⟨l, h1, _, h3, h4, h5, _⟩ :=
    strut_array (display_of 1920 1080 1 true) ⟨none⟩ Gtk.start 1920 50 (by decide) hsize
  ⟨l, h1, h3, h4, h5⟩

/-- C8: read in the EWMH slot order, the array written on a 1920x1080 monitor at
scale factor 1 has `bottom = 70` (slot 3), but the window width 1920 stands in
slot 9 (`top_end_x`) while slot 11 (`bottom_end_x`) is 0; and for every width
and height the array built has the width in slot 9 and 0 in slots 10 and 11. -/
theorem strut_width_in_top_end_x :
    strut_property (activated (display_of 1920 1080 1 true) ⟨none⟩ Gtk.start)
      = some (XData.longs [some 0, some 0, some 0, some 70, some 0, some 0, some 0, some 0,
          some 0, some 1920, some 0, some 0]) ∧
    ∀ ww wh : Option Int,
      (strut ww wh)[9]? = some ww ∧ (strut ww wh)[10]? = some (some 0) ∧
      (strut ww wh)[11]? = some (some 0) := by
  constructor
  · rw [strut_property_activated _ _ _ (by decide)]
    simp [strut, window_height_eq, display_of, int_to_long, int_add, int_result, INT_MIN,
      INT_MAX]
  · intro ww wh
    simp [strut, int_to_long]

/-- C9, as stated, fails where the arithmetic leaves the C type `int`: with
scale factor 42949673 on a 1920x1080 monitor there are no values `y` and
`strut_bottom` with `y + strut_bottom = h`. -/
theorem strut_bottom_overflow :
    ¬ ∃ (y b : Int) (l : List (Option Int)),
      (activated (display_of 1920 1080 42949673 true) ⟨none⟩ Gtk.start).window.position
        = some (some 0, some y) ∧
      strut_property (activated (display_of 1920 1080 42949673 true) ⟨none⟩ Gtk.start)
        = some (XData.longs l) ∧
      l[3]? = some (some b) ∧ y + b = 1080 := by
  rintro ⟨y, b, l, hp, -, -, -⟩
  simp [activated_window, window_height_eq, display_of, int_sub, int_result, INT_MIN,
    INT_MAX] at hp

/-- C9 (amended): for every monitor height `h` and scale factor `s` for which
`50 * s`, `h - 50 * s` and `h - 50 * s - 20` are representable in the C type
`int`, the bottom strut equals the distance from the top edge of the window to
the bottom of the monitor: `strut_bottom = h - y = window_height + 20`, so
`y + strut_bottom = h`; and whenever `h ≥ 50 * s + 20`, `0 ≤ y` and
`y + window_height = h - 20`. -/
theorem strut_bottom_matches_position (d : Display) (self : MyApplication) (g : Gtk)
    (hx : (d.gdk_windowing_x11 && d.is_x11_window) = true)
    (h1 : INT_MIN ≤ 50 * d.scale_factor) (h2 : 50 * d.scale_factor ≤ INT_MAX)
    (h3 : d.monitor_geometry.height - 50 * d.scale_factor ≤ INT_MAX)
    (h4 : INT_MIN ≤ d.monitor_geometry.height - 50 * d.scale_factor - 20) :
    ∃ (y b wh : Int) (l : List (Option Int)),
      (activated d self g).window.position = some (some 0, some y) ∧
      (activated d self g).window.default_size
        = some (some d.monitor_geometry.width, some wh) ∧
      strut_property (activated d self g) = some (XData.longs l) ∧
      l[3]? = some (some b) ∧
      b = d.monitor_geometry.height - y ∧ b = wh + 20 ∧
      y + b = d.monitor_geometry.height ∧
      (50 * d.scale_factor + 20 ≤ d.monitor_geometry.height →
        0 ≤ y ∧ y + wh = d.monitor_geometry.height - 20) := by
  have hw := window_height_of_range d h1 h2
  refine ⟨d.monitor_geometry.height - 50 * d.scale_factor - 20, 50 * d.scale_factor + 20,
    50 * d.scale_factor, strut (some d.monitor_geometry.width) (window_height d),
    ?_, ?_, strut_property_activated d self g hx, ?_, ?_, rfl, ?_, ?_⟩
  · rw [activated_window, window_y_of_range d h1 h2 h3 h4]
  · rw [activated_window, hw]
  · simp [strut, int_to_long, strut_bottom_of_height d _ hw]
  · omega
  · omega
  · intro h; omega

/-- Witness of C9 (amended): a 1920x1080 monitor at scale factor 1 on X11:
`y = 1010`, `strut_bottom = 70`. -/
theorem strut_bottom_matches_position_witness :
    ∃ (y b : Int),
      (activated (display_of 1920 1080 1 true) ⟨none⟩ Gtk.start).window.position
        = some (some 0, some y) ∧ y + b = 1080 ∧ 0 ≤ y :=
  have ⟨y, b, _, _, hp, _, _, _, _, _, hs, hin⟩ :=
    strut_bottom_matches_position (display_of 1920 1080 1 true) ⟨none⟩ Gtk.start
      (by decide) (by decide) (by decide) (by decide) (by decide)
  ⟨y, b, hp, hs, (hin (by decide)).1⟩

/-- C10: the state `my_application_activate` produces (window position and
size, the 12 strut values, every call made) does not depend on the origin of
the primary monitor: replacing the origin `(x, y)` of the monitor geometry by
any other leaves it unchanged, and the position requested is
`(0, h - window_height - 20)`. -/
theorem origin_independent (d : Display) (x0 y0 : Int) (self : MyApplication) (g : Gtk) :
    activated { d with monitor_geometry := { d.monitor_geometry with x := x0, y := y0 } }
        self g = activated d self g ∧
    (activated d self g).window.position = some (some 0,
      int_sub (int_sub (some d.monitor_geometry.height) (window_height d)) (some 20)) := by
  constructor
  · obtain ⟨geo, s, v, x, w, e⟩ := d
    cases v <;> cases x <;> cases w <;> rfl
  · rw [activated_window]

/-! ## Registration and the command line -/

theorem local_command_line_failure (d : Display) (self : MyApplication)
    (arguments : List String) (g : Gtk) (message : String)
    (h : d.register_error = some message) :
    my_application_local_command_line d self arguments g =
      ({ self := { dart_entrypoint_arguments := some (arguments.drop 1) },
         exit_status := 1, handled := true },
       { g with calls := g.calls ++ [.g_application_register] ++
           [.g_warning ("Failed to register: " ++ message)] }) := by
  obtain ⟨geo, s, v, x, w, e⟩ := d
  simp only at h
  subst h
  rfl

theorem local_command_line_success (d : Display) (self : MyApplication)
    (arguments : List String) (g : Gtk) (h : d.register_error = none) :
    my_application_local_command_line d self arguments g =
      ({ self := { dart_entrypoint_arguments := some (arguments.drop 1) },
         exit_status := 0, handled := true },
       activated d { dart_entrypoint_arguments := some (arguments.drop 1) }
         { g with calls := g.calls ++ [.g_application_register] ++
             [.g_application_activate] }) := by
  obtain ⟨geo, s, v, x, w, e⟩ := d
  simp only at h
  subst h
  rfl

theorem new_calls_failure (d : Display) (self : MyApplication)
    (arguments : List String) (g : Gtk) (message : String)
    (h : d.register_error = some message) :
    new_calls g (my_application_local_command_line d self arguments g).2 =
      [.g_application_register, .g_warning ("Failed to register: " ++ message)] := by
  simp [local_command_line_failure d self arguments g message h, new_calls]

theorem new_calls_success (d : Display) (self : MyApplication)
    (arguments : List String) (g : Gtk) (h : d.register_error = none) :
    new_calls g (my_application_local_command_line d self arguments g).2 =
      [.g_application_register, .g_application_activate] ++
        (window_setup_calls d ++
          ((if d.gdk_windowing_x11 && d.is_x11_window then x11_calls d else []) ++
            view_setup_calls { dart_entrypoint_arguments := some (arguments.drop 1) })) := by
  simp [local_command_line_success d self arguments g h, new_calls, activated_calls]

/-- C4: for every argument list, `my_application_local_command_line` attempts
registration exactly once; if registration fails it sets `exit_status = 1`,
reports the command line as handled and makes no further call but the warning
(no activation, no window constructed, window and view untouched); if
registration succeeds it invokes activation exactly once (one window is
constructed) and sets `exit_status = 0`; so `exit_status = 1` exactly when
registration failed. -/
theorem registration_gates_activation (d : Display) (self : MyApplication)
    (arguments : List String) (g : Gtk) :
    (new_calls g (my_application_local_command_line d self arguments g).2).count
        .g_application_register = 1 ∧
    (my_application_local_command_line d self arguments g).1.handled = true ∧
    ((my_application_local_command_line d self arguments g).1.exit_status = 1 ↔
        d.register_error ≠ none) ∧
    match d.register_error with
    | some message =>
      (my_application_local_command_line d self arguments g).1.exit_status = 1 ∧
      new_calls g (my_application_local_command_line d self arguments g).2 =
        [.g_application_register, .g_warning ("Failed to register: " ++ message)] ∧
      (new_calls g (my_application_local_command_line d self arguments g).2).count
        .g_application_activate = 0 ∧
      (new_calls g (my_application_local_command_line d self arguments g).2).count
        .gtk_application_window_new = 0 ∧
      (my_application_local_command_line d self arguments g).2.window = g.window ∧
      (my_application_local_command_line d self arguments g).2.view = g.view
    | none =>
      (my_application_local_command_line d self arguments g).1.exit_status = 0 ∧
      (new_calls g (my_application_local_command_line d self arguments g).2).count
        .g_application_activate = 1 ∧
      (new_calls g (my_application_local_command_line d self arguments g).2).count
        .gtk_application_window_new = 1 ∧
      (my_application_local_command_line d self arguments g).2.window.realized = true := by
  cases h : d.register_error with
  | some message =>
    have hn := new_calls_failure d self arguments g message h
    have hr := local_command_line_failure d self arguments g message h
    simp only [hn]
    rw [hr]
    simp
  | none =>
    have hn := new_calls_success d self arguments g h
    have hr := local_command_line_success d self arguments g h
    simp only [hn]
    rw [hr]
    obtain ⟨geo, s, v, x, w, e⟩ := d
    cases v <;> cases x <;> cases w <;>
      simp [activated_window, window_setup_calls, x11_calls, view_setup_calls]

/-- C5: for every non-empty argument list `a0 :: rest`, after
`my_application_local_command_line` the stored `dart_entrypoint_arguments` is
`rest`, whether or not registration succeeds; `my_application_activate` hands
the stored list unchanged to the Dart project of the view; so after a
successful registration the project of the embedded view holds `rest`. -/
theorem arguments_forwarded (d : Display) (self : MyApplication) (a0 : String)
    (rest : List String) (g : Gtk) :
    (my_application_local_command_line d self (a0 :: rest) g).1.self.dart_entrypoint_arguments
      = some rest ∧
    (activated d self g).view.project.dart_entrypoint_arguments
      = self.dart_entrypoint_arguments ∧
    Call.fl_dart_project_set_dart_entrypoint_arguments self.dart_entrypoint_arguments
      ∈ new_calls g (activated d self g) ∧
    match d.register_error with
    | some _ => True
    | none =>
      (my_application_local_command_line d self (a0 :: rest) g).2.view.project.dart_entrypoint_arguments
        = some rest ∧
      Call.fl_dart_project_set_dart_entrypoint_arguments (some rest)
        ∈ new_calls g (my_application_local_command_line d self (a0 :: rest) g).2 := by
  refine ⟨?_, ?_, ?_, ?_⟩
  · cases h : d.register_error with
    | some message => rw [local_command_line_failure d self _ g message h]; rfl
    | none => rw [local_command_line_success d self _ g h]; rfl
  · rw [activated_view]
  · rw [new_calls_activated]; simp [view_setup_calls]
  · cases h : d.register_error with
    | some message => trivial
    | none =>
      have hn := new_calls_success d self (a0 :: rest) g h
      have hr := local_command_line_success d self (a0 :: rest) g h
      simp only [hn]
      rw [hr, activated_view]
      simp [view_setup_calls]

/-! ## Visibility of the window -/

theorem first_frame_cb_window_visible (self : MyApplication) (g : Gtk) :
    (first_frame_cb self .view g).2.window.visible =
      (g.window.visible || decide (g.view.parent = some .window)) := by
  obtain ⟨win, view, xp, xf, calls⟩ := g
  obtain ⟨project, bg, vis, parent, handlers, plugins, focus⟩ := view
  cases parent with
  | none => simp [first_frame_cb, gtk_widget_get_toplevel, gtk_widget_show, record,
      bind, StateT.bind, get, getThe, MonadStateOf.get, StateT.get, pure, StateT.pure,
      modify, modifyGet, MonadStateOf.modifyGet, StateT.modifyGet]
  | some p =>
    cases p <;>
      simp [first_frame_cb, gtk_widget_get_toplevel, gtk_widget_show, record,
        bind, StateT.bind, get, getThe, MonadStateOf.get, StateT.get, pure, StateT.pure,
        modify, modifyGet, MonadStateOf.modifyGet, StateT.modifyGet]

theorem first_frame_cb_view (self : MyApplication) (g : Gtk)
    (hp : g.view.parent = some .window) :
    (first_frame_cb self .view g).2.view = g.view := by
  obtain ⟨win, view, xp, xf, calls⟩ := g
  obtain ⟨project, bg, vis, parent, handlers, plugins, focus⟩ := view
  simp only at hp
  subst hp
  rfl

theorem first_frame_cb_parent (self : MyApplication) (g : Gtk) :
    (first_frame_cb self .view g).2.view.parent = g.view.parent := by
  obtain ⟨win, view, xp, xf, calls⟩ := g
  obtain ⟨project, bg, vis, parent, handlers, plugins, focus⟩ := view
  cases parent with
  | none => rfl
  | some p => cases p <;> rfl

theorem emit_first_frame_eq (self : MyApplication) (g : Gtk)
    (hh : g.view.first_frame_handlers = [.first_frame_cb]) :
    (emit_first_frame self g).2 = (first_frame_cb self .view g).2 := by
  obtain ⟨win, view, xp, xf, calls⟩ := g
  obtain ⟨project, bg, vis, parent, handlers, plugins, focus⟩ := view
  simp only at hh
  subst hh
  rfl

theorem fire_first_frame_visible (self : MyApplication) (n : Nat) (g : Gtk)
    (hh : g.view.first_frame_handlers = [.first_frame_cb])
    (hp : g.view.parent = some .window) :
    (fire_first_frame self (n + 1) g).window.visible = true := by
  induction n generalizing g with
  | zero =>
    show (emit_first_frame self g).2.window.visible = true
    rw [emit_first_frame_eq self g hh, first_frame_cb_window_visible, hp]
    simp
  | succ n ih =>
    show (fire_first_frame self (n + 1) (emit_first_frame self g).2).window.visible = true
    have hv : (emit_first_frame self g).2.view = g.view := by
      rw [emit_first_frame_eq self g hh, first_frame_cb_view self g hp]
    exact ih _ (by rw [hv]; exact hh) (by rw [hv]; exact hp)

/-- C6: after `my_application_activate` the top-level window is hidden (activate
shows the view widget only, never the window); the first firing of the
first-frame signal makes the window visible; after any number `n + 1` of
firings it is visible; `first_frame_cb` is idempotent on the visibility of the
window and never hides it. -/
theorem window_shown_on_first_frame (d : Display) (self : MyApplication) (g : Gtk) :
    (activated d self g).window.visible = false ∧
    Call.gtk_widget_show .window ∉ new_calls g (activated d self g) ∧
    Call.gtk_widget_show .view ∈ new_calls g (activated d self g) ∧
    (fire_first_frame self 1 (activated d self g)).window.visible = true ∧
    (∀ n, (fire_first_frame self (n + 1) (activated d self g)).window.visible = true) ∧
    (∀ g1 : Gtk,
      (first_frame_cb self .view (first_frame_cb self .view g1).2).2.window.visible
        = (first_frame_cb self .view g1).2.window.visible) ∧
    (∀ g1 : Gtk, g1.window.visible = true →
      (first_frame_cb self .view g1).2.window.visible = true) := by
  have hh : (activated d self g).view.first_frame_handlers = [.first_frame_cb] := by
    rw [activated_view]
  have hp : (activated d self g).view.parent = some .window := by
    rw [activated_view]
  refine ⟨?_, ?_, ?_, fire_first_frame_visible self 0 _ hh hp,
    fun n => fire_first_frame_visible self n _ hh hp, ?_, ?_⟩
  · rw [activated_window]
  · rw [new_calls_activated]
    obtain ⟨geo, s, v, x, w, e⟩ := d
    cases v <;> cases x <;> cases w <;> simp [window_setup_calls, x11_calls, view_setup_calls]
  · rw [new_calls_activated]; simp [view_setup_calls]
  · intro g1
    rw [first_frame_cb_window_visible, first_frame_cb_window_visible, first_frame_cb_parent]
    simp
  · intro g1 hv
    rw [first_frame_cb_window_visible, hv]
    simp

/-! ## X11 and the other backends -/

/-- C7: for every monitor geometry and scale factor, on a backend that is not
X11 `my_application_activate` makes no Xlib call and leaves the X properties
and the flush count untouched, and produces the same window state, the same
view state and the same sequence of toolkit operations as on X11; on X11 the
additional calls are exactly the dock-type property, the strut property and one
flush, made between the move and the creation of the view. -/
theorem x11_only_adds_properties (d : Display) (self : MyApplication) (g : Gtk)
    (hnon : (d.gdk_windowing_x11 && d.is_x11_window) = false) :
    (new_calls g (activated d self g)).all (fun c => !c.is_xlib) = true ∧
    (activated d self g).x_properties = g.x_properties ∧
    (activated d self g).x_flushes = g.x_flushes ∧
    (activated d self g).window = (activated (on_x11 d) self g).window ∧
    (activated d self g).view = (activated (on_x11 d) self g).view ∧
    new_calls g (activated d self g) = window_setup_calls d ++ view_setup_calls self ∧
    new_calls g (activated (on_x11 d) self g)
      = window_setup_calls d ++ (x11_calls d ++ view_setup_calls self) ∧
    (new_calls g (activated (on_x11 d) self g)).filter (fun c => !c.is_xlib)
      = new_calls g (activated d self g) ∧
    (new_calls g (activated (on_x11 d) self g)).filter Call.is_xlib = x11_calls d ∧
    (activated (on_x11 d) self g).x_flushes = g.x_flushes + 1 := by
  have hon : ((on_x11 d).gdk_windowing_x11 && (on_x11 d).is_x11_window) = true := rfl
  have hws : window_setup_calls (on_x11 d) = window_setup_calls d := rfl
  have hxc : x11_calls (on_x11 d) = x11_calls d := rfl
  have hnew : new_calls g (activated d self g)
      = window_setup_calls d ++ view_setup_calls self := by
    rw [new_calls_activated, hnon]; simp
  have hnewx : new_calls g (activated (on_x11 d) self g)
      = window_setup_calls d ++ (x11_calls d ++ view_setup_calls self) := by
    rw [new_calls_activated, hon, hws, hxc]; simp
  have hfw : (window_setup_calls d).filter Call.is_xlib = [] := by
    cases hv : d.rgba_visual <;> simp [window_setup_calls, hv, Call.is_xlib]
  have hfw2 : (window_setup_calls d).filter (fun c => !c.is_xlib) = window_setup_calls d := by
    cases hv : d.rgba_visual <;> simp [window_setup_calls, hv, Call.is_xlib]
  refine ⟨?_, ?_, ?_, ?_, ?_, hnew, hnewx, ?_, ?_, ?_⟩
  · rw [hnew]
    cases hv : d.rgba_visual <;>
      simp [window_setup_calls, view_setup_calls, hv, Call.is_xlib]
  · rw [activated_x_properties, hnon]; simp
  · rw [activated_x_flushes, hnon]; simp
  · rw [activated_window, activated_window]; rfl
  · rw [activated_view, activated_view]
  · rw [hnewx, hnew, List.filter_append, List.filter_append, hfw2]
    simp [x11_calls, view_setup_calls, Call.is_xlib]
  · rw [hnewx, List.filter_append, List.filter_append, hfw]
    simp [x11_calls, view_setup_calls, Call.is_xlib]
  · rw [activated_x_flushes, hon]; simp

/-- Witness of C7: a 1920x1080 monitor at scale factor 1 on a backend that is
not X11: no property is set and nothing is flushed. -/
theorem x11_only_adds_properties_witness :
    ((display_of 1920 1080 1 false).gdk_windowing_x11 &&
      (display_of 1920 1080 1 false).is_x11_window) = false ∧
    (activated (display_of 1920 1080 1 false) ⟨none⟩ Gtk.start).x_properties = [] ∧
    (activated (display_of 1920 1080 1 false) ⟨none⟩ Gtk.start).x_flushes = 0 :=
  have h := x11_only_adds_properties (display_of 1920 1080 1 false) ⟨none⟩ Gtk.start
    (by decide)
  ⟨by decide, h.2.1, h.2.2.1⟩

end VaxpDock
